import Mathlib

/-!
Verification of the instance-registry and deployment-orchestration core of
the `redis-up` tool.  The Rust source under `src/` is embedded shallowly:

* `src/config.rs` — the persisted registry (`Config`), the per-kind name
  allocator (`generate_name`), lookups (`get_latest_instance`, …);
* `src/commands/{basic,stack,cluster,sentinel,enterprise}.rs` — the start
  and stop orchestration, with the external container runtime modelled as
  an oracle of `Except`-valued results injected into each function;
* `src/commands/yaml.rs` — the batch deployer;
* `src/commands/logs.rs` — the most-recent-instance selection.

Rust `HashMap`s are modelled as association lists (the maps are unordered;
list order stands in for the unspecified iteration order), machine integers
as `Nat`, and the serde JSON persistence layer at the level of a structured
JSON tree.  Side effects (docker commands issued, files saved) are recorded
in explicit trace structures.
-/

namespace RedisUp

/-- The five deployment kinds, from `InstanceType` in `src/config.rs`. -/
inductive InstanceType where
  | basic
  | stack
  | cluster
  | sentinel
  | enterprise
deriving DecidableEq, Repr

/-- The `Display` impl for `InstanceType` (`src/config.rs`, lines 26-36). -/
def InstanceType.str : InstanceType → String
  | .basic => "basic"
  | .stack => "stack"
  | .cluster => "cluster"
  | .sentinel => "sentinel"
  | .enterprise => "enterprise"

/-- Values the program stores in the open `metadata` map of a descriptor
(`serde_json::Value` restricted to the shapes the program actually writes:
numbers, booleans, strings and arrays of strings). -/
inductive MetaVal where
  | num (n : Nat)
  | bool (b : Bool)
  | str (s : String)
  | list (xs : List String)
deriving DecidableEq, Repr

/-- `ConnectionInfo` from `src/config.rs` (lines 51-58); the
`additional_ports` hash map is modelled as an association list. -/
structure ConnectionInfo where
  host : String
  port : Nat
  password : Option String
  url : String
  additionalPorts : List (String × Nat)
deriving DecidableEq, Repr

/-- `InstanceInfo` from `src/config.rs` (lines 39-48). -/
structure InstanceInfo where
  name : String
  instanceType : InstanceType
  createdAt : String
  ports : List Nat
  containers : List String
  connectionInfo : ConnectionInfo
  metadata : List (String × MetaVal)
deriving DecidableEq, Repr

/-- `Config` from `src/config.rs` (lines 61-65): the registry.  Both hash
maps (`instances` keyed by name, `counters` keyed by kind name) are
association lists with unique keys. -/
structure Config where
  instances : List (String × InstanceInfo)
  counters : List (String × Nat)
deriving DecidableEq, Repr

/-- Decidable equality of `Except` results (componentwise). -/
instance {ε α : Type} [DecidableEq ε] [DecidableEq α] :
    DecidableEq (Except ε α) :=
  fun a b =>
    match a, b with
    | .error e1, .error e2 =>
      if h : e1 = e2 then isTrue (by rw [h])
      else isFalse (fun hh => h (by cases hh; rfl))
    | .error _, .ok _ => isFalse (fun hh => by cases hh)
    | .ok _, .error _ => isFalse (fun hh => by cases hh)
    | .ok a1, .ok a2 =>
      if h : a1 = a2 then isTrue (by rw [h])
      else isFalse (fun hh => h (by cases hh; rfl))

/-- Association-list lookup (model of `HashMap::get`). -/
def alookup {β : Type} (k : String) : List (String × β) → Option β
  | [] => none
  | (k2, v) :: t => if k2 = k then some v else alookup k t

/-- Association-list upsert (model of `HashMap::insert` / a mutated
`entry`): replaces the value at an existing key, else appends. -/
def aupsert {β : Type} (k : String) (v : β) : List (String × β) →
    List (String × β)
  | [] => [(k, v)]
  | (k2, v2) :: t => if k2 = k then (k, v) :: t else (k2, v2) :: aupsert k v t

/-- Association-list removal (model of `HashMap::remove`). -/
def aremove {β : Type} (k : String) (l : List (String × β)) :
    List (String × β) :=
  l.filter (fun p => p.1 ≠ k)

/-- `Config::add_instance` (`src/config.rs`, lines 102-104): an upsert
keyed by the descriptor's own name. -/
def Config.addInstance (c : Config) (info : InstanceInfo) : Config :=
  { c with instances := aupsert info.name info c.instances }

/-- `Config::remove_instance` (`src/config.rs`, lines 107-109). -/
def Config.removeInstance (c : Config) (name : String) : Config :=
  { c with instances := aremove name c.instances }

/-- `Config::get_instance` (`src/config.rs`, lines 112-114). -/
def Config.getInstance (c : Config) (name : String) : Option InstanceInfo :=
  alookup name c.instances

/-- The values of the `instances` map (`self.instances.values()`). -/
def Config.values (c : Config) : List InstanceInfo :=
  c.instances.map Prod.snd

/-- `Config::list_instances_by_type` (`src/config.rs`, lines 122-127). -/
def Config.listInstancesByType (c : Config) (t : InstanceType) :
    List InstanceInfo :=
  c.values.filter (fun info => info.instanceType = t)

/-- `Config::generate_name` (`src/config.rs`, lines 130-134): bumps the
kind's counter (`entry(..).or_insert(0); *counter += 1`) and returns the
name together with the updated registry. -/
def Config.generateName (c : Config) (t : InstanceType) : String × Config :=
  let old := (alookup t.str c.counters).getD 0
  let n := old + 1
  ("redis-" ++ t.str ++ "-" ++ toString n,
   { c with counters := aupsert t.str n c.counters })

/-- Decimal value of a digit character, if it is one. -/
def charDigit (c : Char) : Option Nat :=
  if c = '0' then some 0 else if c = '1' then some 1
  else if c = '2' then some 2 else if c = '3' then some 3
  else if c = '4' then some 4 else if c = '5' then some 5
  else if c = '6' then some 6 else if c = '7' then some 7
  else if c = '8' then some 8 else if c = '9' then some 9 else none

/-- Accumulating decimal evaluation of a digit string; fails on the first
non-digit character. -/
def digitsVal (acc : Nat) : List Char → Option Nat
  | [] => some acc
  | c :: t =>
    match charDigit c with
    | some d => digitsVal (acc * 10 + d) t
    | none => none

/-- Rust `u32::from_str` as used by `get_latest_instance`: an optional
leading plus sign, then one or more decimal digits, value below 2^32. -/
def parseU32 (s : String) : Option Nat :=
  let core := match s.toList with
    | '+' :: t => t
    | l => l
  match core with
  | [] => none
  | _ =>
    match digitsVal 0 core with
    | some n => if n < 2 ^ 32 then some n else none
    | none => none

/-- The segment of a name after its last dash (the whole name when it has
no dash) — Rust `name.rsplit('-').next()`. -/
def lastSegment (name : String) : String :=
  String.mk ((name.toList.reverse.takeWhile (fun c => c ≠ '-')).reverse)

/-- The numeric-suffix key of `Config::get_latest_instance`
(`src/config.rs`, lines 142-147): the segment after the last dash,
parsed as a `u32`, defaulting to 0. -/
def nameCounterKey (name : String) : Nat :=
  (parseU32 (lastSegment name)).getD 0

/-- One step of Rust `Iterator::max_by_key`: the candidate replaces the
current best when its key is ≥ (so ties keep the later element). -/
def pickLater {α : Type} (le : α → α → Bool) (acc : Option α) (x : α) :
    Option α :=
  match acc with
  | none => some x
  | some a => if le a x then some x else some a

/-- Rust `Iterator::max_by_key` semantics: the last element attaining the
maximum under the comparison `le`. -/
def maxByLast {α : Type} (le : α → α → Bool) (l : List α) : Option α :=
  l.foldl (pickLater le) none

/-- `Config::get_latest_instance` (`src/config.rs`, lines 137-149): filter
the registry values by kind and take the descriptor with the greatest
numeric name suffix (last one on ties, per `max_by_key`). -/
def Config.getLatestInstance (c : Config) (t : InstanceType) :
    Option InstanceInfo :=
  maxByLast (fun a b => decide (nameCounterKey a.name ≤ nameCounterKey b.name))
    (c.values.filter (fun info => info.instanceType = t))

/-- Lexicographic strict comparison of character lists (the order Rust uses
on `String` keys, restricted to the ASCII timestamps the program stores). -/
def charListLt : List Char → List Char → Bool
  | [], [] => false
  | [], _ :: _ => true
  | _ :: _, [] => false
  | a :: as, b :: bs => if a = b then charListLt as bs else decide (a < b)

/-- Lexicographic non-strict comparison of character lists. -/
def charListLe : List Char → List Char → Bool
  | [], _ => true
  | _ :: _, [] => false
  | a :: as, b :: bs => if a = b then charListLe as bs else decide (a < b)

/-- Strict string comparison used when ordering `created_at` timestamps. -/
def strLt (a b : String) : Bool := charListLt a.toList b.toList

/-- Non-strict string comparison used when ordering `created_at`
timestamps. -/
def strLe (a b : String) : Bool := charListLe a.toList b.toList

/-- Substring test on character lists (Rust `str::contains`). -/
def charsHave (hay needle : List Char) : Bool :=
  needle.isPrefixOf hay ||
    match hay with
    | [] => false
    | _ :: t => charsHave t needle

/-- Substring test on strings (Rust `str::contains`). -/
def strHas (s pat : String) : Bool := charsHave s.toList pat.toList

/-- The classified errors a failed start surfaces (§7 of the spec): name
conflicts, port conflicts, and pass-through runtime failures. -/
inductive StartError where
  | nameConflict (m : String)
  | portConflict (m : String)
  | other (m : String)
deriving DecidableEq, Repr

/-- Counter rollback as every failing start performs it
(`counters.entry(kind).and_modify(|c| if *c > 0 { *c -= 1 })`): decrement
the kind's counter when present and positive, otherwise leave the map
unchanged. -/
def rollbackCounter (cs : List (String × Nat)) (k : String) :
    List (String × Nat) :=
  cs.map (fun p => if p.1 = k then (p.1, if 0 < p.2 then p.2 - 1 else p.2) else p)

/-- The effective counter of a kind: the stored value, 0 when absent. -/
def Config.counterOf (c : Config) (k : String) : Nat :=
  (alookup k c.counters).getD 0

/-- Trace of one start attempt: the final in-memory registry, the registry
contents persisted by `save()` (none when `save` was never reached), the
container names passed to best-effort `docker rm -f` during failure
cleanup, and the classified outcome. -/
structure StartTrace where
  finalConfig : Config
  persisted : Option Config
  removed : List String
  outcome : Except StartError InstanceInfo
deriving Repr

/-! ## Cluster topology and `start_cluster` (`src/commands/cluster.rs`) -/

/-- `ClusterStartArgs` from `src/cli.rs` (the fields the core logic uses). -/
structure ClusterArgs where
  name : Option String
  masters : Nat
  replicas : Nat
  portBase : Nat
  persist : Bool
  memory : Option String
  stack : Bool
  withInsight : Bool
  insightPort : Nat
deriving Repr

/-- Total node count of the cluster topology:
`masters + masters * replicas` (`src/commands/cluster.rs`, line 170). -/
def clusterTotalNodes (masters replicas : Nat) : Nat :=
  masters + masters * replicas

/-- Name of cluster node `i` (`src/commands/cluster.rs`, line 172). -/
def clusterNodeName (name : String) (i : Nat) : String :=
  name ++ "-node-" ++ toString i

/-- Container list committed for a cluster: nodes `0 .. totalNodes - 1`,
then the optional inspector (`src/commands/cluster.rs`, lines 169-176). -/
def clusterContainers (name : String) (masters replicas : Nat)
    (withInsight : Bool) : List String :=
  (List.range (clusterTotalNodes masters replicas)).map (clusterNodeName name)
    ++ (if withInsight then [name ++ "-insight"] else [])

/-- Port list committed for a cluster: `portBase + i` per node
(`src/commands/cluster.rs`, lines 179-182; `u16` modelled as `Nat`). -/
def clusterPorts (portBase masters replicas : Nat) : List Nat :=
  (List.range (clusterTotalNodes masters replicas)).map (fun i => portBase + i)

/-- Error classification of `start_cluster` (`src/commands/cluster.rs`,
lines 134-157), by substring inspection of the runtime's error text. -/
def classifyClusterError (msg : String) : StartError :=
  if strHas msg "is already in use by container" || strHas msg "Conflict" then
    .nameConflict msg
  else if strHas msg "port is already allocated" || strHas msg "bind" ||
      strHas msg "Bind for" ||
      strHas msg "failed to set up container networking" ||
      strHas msg "address already in use" then
    .portConflict msg
  else .other msg

/-- Metadata map committed for a cluster
(`src/commands/cluster.rs`, lines 204-232). -/
def clusterMetadata (args : ClusterArgs) : List (String × MetaVal) :=
  [("masters", .num args.masters), ("replicas", .num args.replicas),
   ("total_nodes", .num (clusterTotalNodes args.masters args.replicas)),
   ("port_base", .num args.portBase), ("persist", .bool args.persist),
   ("stack", .bool args.stack), ("insight", .bool args.withInsight)]
    ++ (match args.memory with
        | some m => [("memory", .str m)]
        | none => [])

/-- `start_cluster` (`src/commands/cluster.rs`, lines 20-314).  The
external `RedisClusterTemplate::start` call is the injected `runtime`
result; `createdAt`, `password` and `clusterUrl` are the clock, generated
credential and runtime-derived URL.  On failure: best-effort `rm -f` of
every node container (and the inspector when requested), counter rollback,
`save()`, classified error, no descriptor.  On success: descriptor built
from the topology, `add_instance`, `save()`. -/
def start_cluster (cfg : Config) (args : ClusterArgs)
    (runtime : Except String Unit) (createdAt password clusterUrl : String) :
    StartTrace :=
  let alloc := match args.name with
    | some n => (n, cfg)
    | none => cfg.generateName .cluster
  let name := alloc.1
  let cfg1 := alloc.2
  match runtime with
  | .error e =>
    let cfg2 : Config :=
      { cfg1 with counters := rollbackCounter cfg1.counters InstanceType.cluster.str }
    { finalConfig := cfg2
      persisted := some cfg2
      removed := clusterContainers name args.masters args.replicas args.withInsight
      outcome := .error (classifyClusterError e) }
  | .ok _ =>
    let info : InstanceInfo :=
      { name := name
        instanceType := .cluster
        createdAt := createdAt
        ports := clusterPorts args.portBase args.masters args.replicas
        containers := clusterContainers name args.masters args.replicas args.withInsight
        connectionInfo :=
          { host := "localhost"
            port := args.portBase
            password := some password
            url := clusterUrl
            additionalPorts :=
              if args.withInsight then [("redisinsight", args.insightPort)] else [] }
        metadata := clusterMetadata args }
    let cfg2 := cfg1.addInstance info
    { finalConfig := cfg2
      persisted := some cfg2
      removed := []
      outcome := .ok info }

/-! ## `start_basic` (`src/commands/basic.rs`) -/

/-- `BasicStartArgs` from `src/cli.rs` (fields the core logic uses). -/
structure BasicArgs where
  name : Option String
  port : Nat
  persist : Bool
  memory : Option String
  withInsight : Bool
  insightPort : Nat
deriving Repr

/-- Error classification of `start_basic` (`src/commands/basic.rs`,
lines 80-105); it additionally recognises `already exists` and the
`driver failed programming external connectivity` port failure. -/
def classifyBasicError (msg : String) : StartError :=
  if strHas msg "is already in use by container" || strHas msg "Conflict" ||
      strHas msg "already exists" then
    .nameConflict msg
  else if strHas msg "port is already allocated" || strHas msg "bind" ||
      strHas msg "Bind for" ||
      strHas msg "failed to set up container networking" ||
      strHas msg "address already in use" ||
      strHas msg "driver failed programming external connectivity" then
    .portConflict msg
  else .other msg

/-- `start_basic` (`src/commands/basic.rs`, lines 21-241).  `runtime` is
the `RedisTemplate::start` result; `insightResult` the `start_insight`
result (consulted only when the flag is set, and its failure is downgraded
to a warning).  On failure: best-effort `rm -f` of the single container,
counter rollback, `save()`, classified error.  On success: descriptor with
the single container, `add_instance`, `save()`. -/
def start_basic (cfg : Config) (args : BasicArgs)
    (runtime : Except String Unit) (insightResult : Except String String)
    (createdAt password : String) : StartTrace :=
  let alloc := match args.name with
    | some n => (n, cfg)
    | none => cfg.generateName .basic
  let name := alloc.1
  let cfg1 := alloc.2
  match runtime with
  | .error e =>
    let cfg2 : Config :=
      { cfg1 with counters := rollbackCounter cfg1.counters InstanceType.basic.str }
    { finalConfig := cfg2
      persisted := some cfg2
      removed := [name]
      outcome := .error (classifyBasicError e) }
  | .ok _ =>
    let insight : Option String :=
      if args.withInsight then
        match insightResult with
        | .ok id => some id
        | .error _ => none
      else none
    let info : InstanceInfo :=
      { name := name
        instanceType := .basic
        createdAt := createdAt
        ports := [args.port]
        containers := [name]
        connectionInfo :=
          { host := "localhost"
            port := args.port
            password := some password
            url := "redis://default:" ++ password ++ "@localhost:" ++ toString args.port
            additionalPorts := [] }
        metadata :=
          [("persist", .bool args.persist)]
            ++ (match args.memory with
                | some m => [("memory", .str m)]
                | none => [])
            ++ (match insight with
                | some id => [("insight_container", .str id),
                              ("insight_port", .num args.insightPort)]
                | none => []) }
    let cfg2 := cfg1.addInstance info
    { finalConfig := cfg2
      persisted := some cfg2
      removed := []
      outcome := .ok info }

/-! ## `start_stack` (`src/commands/stack.rs`) -/

/-- `StackStartArgs` from `src/cli.rs` (fields the core logic uses). -/
structure StackArgs where
  name : Option String
  port : Nat
  persist : Bool
  memory : Option String
  withInsight : Bool
  insightPort : Nat
deriving Repr

/-- `start_stack` (`src/commands/stack.rs`, lines 21-326).  On failure:
best-effort `rm -f` of the container and, when the inspector was
requested, of its network; counter rollback; `save()`; classified error
(same substrings as the cluster classifier).  On success: container list
is the instance name plus the inspector name when the flag is set
(whether or not the inspector itself started), `add_instance`, `save()`. -/
def start_stack (cfg : Config) (args : StackArgs)
    (runtime : Except String Unit) (createdAt password : String) :
    StartTrace :=
  let alloc := match args.name with
    | some n => (n, cfg)
    | none => cfg.generateName .stack
  let name := alloc.1
  let cfg1 := alloc.2
  match runtime with
  | .error e =>
    let cfg2 : Config :=
      { cfg1 with counters := rollbackCounter cfg1.counters InstanceType.stack.str }
    { finalConfig := cfg2
      persisted := some cfg2
      removed := [name] ++ (if args.withInsight then [name ++ "-network"] else [])
      outcome := .error (classifyClusterError e) }
  | .ok _ =>
    let info : InstanceInfo :=
      { name := name
        instanceType := .stack
        createdAt := createdAt
        ports := [args.port]
        containers := [name] ++ (if args.withInsight then [name ++ "-insight"] else [])
        connectionInfo :=
          { host := "localhost"
            port := args.port
            password := some password
            url := "redis://default:" ++ password ++ "@localhost:" ++ toString args.port
            additionalPorts :=
              if args.withInsight then [("redisinsight", args.insightPort)] else [] }
        metadata :=
          [("persist", .bool args.persist), ("insight", .bool args.withInsight)]
            ++ (match args.memory with
                | some m => [("memory", .str m)]
                | none => [])
            ++ [("modules", .list ["JSON", "Search", "Graph", "TimeSeries", "Bloom"])] }
    let cfg2 := cfg1.addInstance info
    { finalConfig := cfg2
      persisted := some cfg2
      removed := []
      outcome := .ok info }

/-! ## Sentinel topology and `start_sentinel` (`src/commands/sentinel.rs`) -/

/-- `SentinelStartArgs` from `src/cli.rs` (fields the core logic uses). -/
structure SentinelArgs where
  name : Option String
  masters : Nat
  sentinels : Nat
  redisPortBase : Nat
  sentinelPortBase : Nat
deriving Repr

/-- Majority quorum computed per monitored master
(`src/commands/sentinel.rs`, line 103): `(sentinels / 2) + 1` with
integer (floor) division. -/
def sentinelQuorum (sentinels : Nat) : Nat :=
  sentinels / 2 + 1

/-- Name of master container `j` (0-indexed; the container carries the
1-based index), `src/commands/sentinel.rs`, lines 52 and 101. -/
def sentinelMasterName (name : String) (j : Nat) : String :=
  name ++ "-master-" ++ toString (j + 1)

/-- The `sentinel monitor` directive generated for master `j`
(`src/commands/sentinel.rs`, lines 105-111). -/
def sentinelMonitorLine (name : String) (j redisPortBase sentinels : Nat) :
    String :=
  "sentinel monitor master-" ++ toString (j + 1) ++ " " ++
    sentinelMasterName name j ++ " " ++ toString (redisPortBase + j) ++ " " ++
    toString (sentinelQuorum sentinels) ++ "\n"

/-- The block of directives generated for monitored master `j`
(`src/commands/sentinel.rs`, lines 100-130). -/
def sentinelMasterBlock (name : String) (j redisPortBase sentinels : Nat)
    (password : String) : List String :=
  [sentinelMonitorLine name j redisPortBase sentinels]
    ++ (if password ≠ "" then
          ["sentinel auth-pass master-" ++ toString (j + 1) ++ " " ++ password ++ "\n"]
        else [])
    ++ ["sentinel down-after-milliseconds master-" ++ toString (j + 1) ++ " 5000\n",
        "sentinel failover-timeout master-" ++ toString (j + 1) ++ " 10000\n",
        "sentinel parallel-syncs master-" ++ toString (j + 1) ++ " 1\n"]

/-- All lines of the configuration generated for one monitor node
(`src/commands/sentinel.rs`, lines 93-130): the listening port, hostname
resolution, then one block per monitored master.  The written file is the
concatenation of these lines. -/
def sentinelConfigLines (name : String) (sentinelPort masters redisPortBase
    sentinels : Nat) (password : String) : List String :=
  ["port " ++ toString sentinelPort ++ "\n",
   "sentinel announce-hostnames yes\n",
   "sentinel resolve-hostnames yes\n"]
    ++ (List.range masters).flatMap
        (fun j => sentinelMasterBlock name j redisPortBase sentinels password)

/-- The external container runtime as `start_sentinel` consumes it:
network creation, one start per master index, one start per monitor-node
index (each returning a container id). -/
structure SentinelRuntime where
  network : Except String Unit
  masterStart : Nat → Except String String
  sentinelStart : Nat → Except String String

/-- Sequential realization of `count` containers via `f`, collecting the
returned ids in order and stopping at the first failure (the `for` loops
of `start_sentinel`). -/
def collectIds (f : Nat → Except String String) : Nat → Except String (List String)
  | 0 => .ok []
  | n + 1 =>
    match collectIds f n with
    | .error e => .error e
    | .ok l =>
      match f n with
      | .error e => .error e
      | .ok id => .ok (l ++ [id])

/-- `start_sentinel` (`src/commands/sentinel.rs`, lines 19-238).  The
effective counts are `max masters 1` and `max sentinels 1`.  Realization
errors (network creation, any master start, any monitor-node start)
propagate directly: no container cleanup, no counter rollback and no
`save()` are performed on failure.  On success the descriptor's containers
are the runtime-returned ids (masters first, then monitor nodes). -/
def start_sentinel (cfg : Config) (args : SentinelArgs)
    (rt : SentinelRuntime) (createdAt password : String) : StartTrace :=
  let alloc := match args.name with
    | some n => (n, cfg)
    | none => cfg.generateName .sentinel
  let name := alloc.1
  let cfg1 := alloc.2
  match rt.network with
  | .error e =>
    { finalConfig := cfg1, persisted := none, removed := []
      outcome := .error (.other e) }
  | .ok _ =>
    let masters := max args.masters 1
    match collectIds rt.masterStart masters with
    | .error e =>
      { finalConfig := cfg1, persisted := none, removed := []
        outcome := .error (.other e) }
    | .ok masterIds =>
      let sentinels := max args.sentinels 1
      match collectIds rt.sentinelStart sentinels with
      | .error e =>
        { finalConfig := cfg1, persisted := none, removed := []
          outcome := .error (.other e) }
      | .ok sentinelIds =>
        let info : InstanceInfo :=
          { name := name
            instanceType := .sentinel
            createdAt := createdAt
            ports := (List.range masters).map (fun i => args.redisPortBase + i)
                      ++ (List.range sentinels).map (fun i => args.sentinelPortBase + i)
            containers := masterIds ++ sentinelIds
            connectionInfo :=
              { host := "localhost"
                port := args.redisPortBase
                password := some password
                url := "redis://:" ++ password ++ "@localhost:" ++
                        toString args.redisPortBase
                additionalPorts := [("sentinel_base", args.sentinelPortBase)] }
            metadata :=
              [("masters", .num masters), ("sentinels", .num sentinels),
               ("network", .str (name ++ "-network")),
               ("sentinel_containers", .list sentinelIds)] }
        let cfg2 := cfg1.addInstance info
        { finalConfig := cfg2
          persisted := some cfg2
          removed := []
          outcome := .ok info }

/-! ## `start_enterprise` (`src/commands/enterprise.rs`) -/

/-- `EnterpriseStartArgs` from `src/cli.rs` (fields the core logic uses). -/
structure EnterpriseArgs where
  name : Option String
  portBase : Nat
  createDb : Option String
  dbPort : Nat
  containersOnly : Bool
deriving Repr

/-- The connection data the external enterprise template returns from a
successful bootstrap (`RedisEnterpriseConnectionInfo`). -/
structure EnterpriseConn where
  containerName : String
  clusterName : String
  password : String
  databasePort : Option Nat
deriving Repr

/-- `start_enterprise` (`src/commands/enterprise.rs`, lines 19-240).  Any
realization error (manual container start, or cluster bootstrap) is
propagated with context: no counter rollback, no cleanup, no `save()`.  In
`containers_only` mode the administrative container is named
`name-enterprise` and the connection is left pending.  The committed
descriptor has the single administrative container, UI port `portBase`,
API port `portBase + 1000` and the database port. -/
def start_enterprise (cfg : Config) (args : EnterpriseArgs)
    (runtime : Except String EnterpriseConn) (createdAt : String) :
    StartTrace :=
  let alloc := match args.name with
    | some n => (n, cfg)
    | none => cfg.generateName .enterprise
  let name := alloc.1
  let cfg1 := alloc.2
  match runtime with
  | .error e =>
    { finalConfig := cfg1, persisted := none, removed := []
      outcome := .error (.other e) }
  | .ok rtConn =>
    let conn : EnterpriseConn :=
      if args.containersOnly then
        { containerName := name ++ "-enterprise"
          clusterName := name ++ "-cluster"
          password := "<set during UI setup>"
          databasePort := none }
      else rtConn
    let info : InstanceInfo :=
      { name := name
        instanceType := .enterprise
        createdAt := createdAt
        ports := [args.portBase, args.portBase + 1000, args.dbPort]
        containers := [conn.containerName]
        connectionInfo :=
          { host := "localhost"
            port := args.dbPort
            password := some conn.password
            url := match conn.databasePort with
              | some _ => "redis://localhost:" ++ toString args.dbPort
              | none => "<pending database creation>"
            additionalPorts := [("ui", args.portBase), ("api", args.portBase + 1000)] }
        metadata :=
          [("nodes", .num 1), ("ui_port", .num args.portBase),
           ("api_port", .num (args.portBase + 1000)),
           ("cluster_name", .str conn.clusterName),
           ("container_name", .str conn.containerName)]
            ++ (match conn.databasePort with
                | some p => [("database_port", .num p)]
                | none => [])
            ++ (match args.createDb with
                | some db => [("database_name", .str db)]
                | none => []) }
    let cfg2 := cfg1.addInstance info
    { finalConfig := cfg2
      persisted := some cfg2
      removed := []
      outcome := .ok info }

/-! ## Stop paths (`stop_basic`, `stop_sentinel`, `stop_cluster`) -/

/-- The external runtime as the stop paths consume it. -/
structure StopRuntime where
  stopContainer : String → Except String Unit
  removeContainer : String → Except String Unit
  removeNetwork : String → Except String Unit

/-- Trace of one stop attempt. -/
structure StopTrace where
  finalConfig : Config
  persisted : Option Config
  outcome : Except String Unit
deriving Repr

/-- `stop_basic` (`src/commands/basic.rs`, lines 244-317): resolve the
name (latest basic instance when omitted), check existence and kind, then
stop and force-remove the container — each of these two runtime failures
aborts the whole stop (`?`), leaving the registry untouched and unsaved.
An attached inspector's stop failure is only warned about.  Only after
both commands succeed is the entry removed and the registry saved. -/
def stop_basic (cfg : Config) (nameArg : Option String) (rt : StopRuntime) :
    StopTrace :=
  let name? := match nameArg with
    | some n => some n
    | none => (cfg.getLatestInstance .basic).map (fun i => i.name)
  match name? with
  | none =>
    { finalConfig := cfg, persisted := none
      outcome := .error "No basic Redis instances found" }
  | some name =>
    match cfg.getInstance name with
    | none =>
      { finalConfig := cfg, persisted := none
        outcome := .error "Instance not found" }
    | some inst =>
      if inst.instanceType ≠ .basic then
        { finalConfig := cfg, persisted := none
          outcome := .error "Instance is not a basic Redis instance" }
      else
        match rt.stopContainer name with
        | .error e =>
          { finalConfig := cfg, persisted := none
            outcome := .error ("Failed to stop Redis instance: " ++ e) }
        | .ok _ =>
          match rt.removeContainer name with
          | .error e =>
            { finalConfig := cfg, persisted := none
              outcome := .error ("Failed to remove Redis container: " ++ e) }
          | .ok _ =>
            let cfg2 := cfg.removeInstance name
            { finalConfig := cfg2, persisted := some cfg2, outcome := .ok () }

/-- `stop_sentinel` (`src/commands/sentinel.rs`, lines 240-296): resolve
the name (latest sentinel when omitted), look the entry up, then stop and
force-remove every listed container and remove the recorded network — all
with `.ok()`, i.e. every individual runtime failure is silently ignored
(not even counted).  The entry is then removed and the registry saved
regardless of those failures. -/
def stop_sentinel (cfg : Config) (nameArg : Option String)
    (_rt : StopRuntime) : StopTrace :=
  let name? := match nameArg with
    | some n => some n
    | none => (cfg.getLatestInstance .sentinel).map (fun i => i.name)
  match name? with
  | none =>
    { finalConfig := cfg, persisted := none
      outcome := .error "No Sentinel instance found" }
  | some name =>
    match cfg.getInstance name with
    | none =>
      { finalConfig := cfg, persisted := none
        outcome := .error "Sentinel instance not found" }
    | some _ =>
      let cfg2 := cfg.removeInstance name
      { finalConfig := cfg2, persisted := some cfg2, outcome := .ok () }

/-- `stop_cluster` (`src/commands/cluster.rs`, lines 317-372): resolve the
name (latest cluster when omitted), check existence and kind, then call
the template's `stop` and `remove` — either failure aborts the whole stop
(`?`), leaving the registry untouched and unsaved. -/
def stop_cluster (cfg : Config) (nameArg : Option String)
    (templateStop templateRemove : Except String Unit) : StopTrace :=
  let name? := match nameArg with
    | some n => some n
    | none => (cfg.getLatestInstance .cluster).map (fun i => i.name)
  match name? with
  | none =>
    { finalConfig := cfg, persisted := none
      outcome := .error "No Redis Cluster instances found" }
  | some name =>
    match cfg.getInstance name with
    | none =>
      { finalConfig := cfg, persisted := none
        outcome := .error "Instance not found" }
    | some inst =>
      if inst.instanceType ≠ .cluster then
        { finalConfig := cfg, persisted := none
          outcome := .error "Instance is not a Redis Cluster instance" }
      else
        match templateStop with
        | .error e =>
          { finalConfig := cfg, persisted := none
            outcome := .error ("Failed to stop Redis Cluster: " ++ e) }
        | .ok _ =>
          match templateRemove with
          | .error e =>
            { finalConfig := cfg, persisted := none
              outcome := .error ("Failed to remove Redis Cluster: " ++ e) }
          | .ok _ =>
            let cfg2 := cfg.removeInstance name
            { finalConfig := cfg2, persisted := some cfg2, outcome := .ok () }

/-! ## Batch deployment (`src/commands/yaml.rs`) -/

/-- One entry of the declarative batch document (the fields the loop in
`deploy_from_yaml` consumes; the kind-specific parameters live behind the
per-entry `runOne` action). -/
structure Deployment where
  name : String
deriving DecidableEq, Repr

/-- The per-entry console line `deploy_from_yaml` prints
(`src/commands/yaml.rs`, lines 230-247, colour codes elided). -/
def deployMessage (d : Deployment) (r : Except String Unit) : String :=
  match r with
  | .ok _ => d.name ++ " deployed successfully"
  | .error e => "Failed to deploy " ++ d.name ++ ": " ++ e

/-- `deploy_from_yaml` (`src/commands/yaml.rs`, lines 194-254) after
parsing: an unsupported `api-version` is a hard failure before any entry
runs; otherwise every entry is attempted in order via `runOne`
(`deploy_single`), a failure producing only its per-entry line, and the
function ends with the fixed completion line and an `Ok` result. -/
def deploy_from_yaml (apiVersion : String) (deployments : List Deployment)
    (runOne : Deployment → Except String Unit) : Except String (List String) :=
  if apiVersion ≠ "v1" then
    .error ("Unsupported API version: " ++ apiVersion ++ ". Expected: v1")
  else
    .ok ((deployments.map (fun d => deployMessage d (runOne d)))
          ++ ["All deployments complete"])

/-- Sequential batch of basic starts with the registry threaded through
the persisted store, as `deploy_from_yaml` drives `start_basic` (each
entry re-loads and re-saves the registry). -/
def deployBasicBatch (cfg : Config)
    (entries : List (BasicArgs × Except String Unit))
    (createdAt password : String) : Config :=
  entries.foldl
    (fun c e => (start_basic c e.1 e.2 (.error "") createdAt password).finalConfig)
    cfg

/-! ## Log viewing (`src/commands/logs.rs`) -/

/-- The most recently created descriptor among a list, by `created_at`
(`src/commands/logs.rs`, lines 35-40: `max_by_key` over the timestamps,
last one on ties). -/
def latestByCreated (l : List InstanceInfo) : Option InstanceInfo :=
  maxByLast (fun a b => strLe a.createdAt b.createdAt) l

/-- The `created_at`-based latest-instance notion restricted to one kind —
the timestamp counterpart of `Config.getLatestInstance`. -/
def Config.latestOfKindByCreated (c : Config) (t : InstanceType) :
    Option InstanceInfo :=
  latestByCreated (c.values.filter (fun info => info.instanceType = t))

/-- The representative container the logs command reads
(`src/commands/logs.rs`, line 60: `&instance.containers[0]`, an access
that fails when the list is empty — modelled as an option). -/
def representativeContainer (i : InstanceInfo) : Option String :=
  i.containers.get? 0

/-! ## Persistence (`Config::save` / `Config::load`, `src/config.rs`)

The persisted store is a single JSON document (`instances.json`) holding
the whole registry; `save` serializes with serde and fully rewrites the
file, `load` parses it, returning the empty registry when the file does
not exist.  The serde text layer is external; the embedding models the
document as a JSON tree and implements serde's derived
serialization/deserialization for these types field by field. -/

/-- A JSON document. -/
inductive Json where
  | null
  | bool (b : Bool)
  | num (n : Nat)
  | str (s : String)
  | arr (xs : List Json)
  | obj (fields : List (String × Json))
deriving Repr

/-- Serialization of a metadata value. -/
def encodeMeta : MetaVal → Json
  | .num n => .num n
  | .bool b => .bool b
  | .str s => .str s
  | .list xs => .arr (xs.map .str)

/-- Deserialization of a list of JSON strings. -/
def decodeStrList : List Json → Option (List String)
  | [] => some []
  | .str s :: t => (decodeStrList t).map (fun l => s :: l)
  | _ => none

/-- Deserialization of a metadata value. -/
def decodeMeta : Json → Option MetaVal
  | .num n => some (.num n)
  | .bool b => some (.bool b)
  | .str s => some (.str s)
  | .arr xs => (decodeStrList xs).map .list
  | _ => none

/-- Serialization of the kind tag (serde `rename_all = "lowercase"`). -/
def encodeType (t : InstanceType) : Json := .str t.str

/-- Deserialization of the kind tag. -/
def decodeType : Json → Option InstanceType
  | .str "basic" => some .basic
  | .str "stack" => some .stack
  | .str "cluster" => some .cluster
  | .str "sentinel" => some .sentinel
  | .str "enterprise" => some .enterprise
  | _ => none

/-- Deserialization of a list of JSON numbers (ports). -/
def decodeNatList : List Json → Option (List Nat)
  | [] => some []
  | .num n :: t => (decodeNatList t).map (fun l => n :: l)
  | _ => none

/-- Deserialization of a string-keyed map of numbers. -/
def decodeNatPairs : List (String × Json) → Option (List (String × Nat))
  | [] => some []
  | (k, .num n) :: t => (decodeNatPairs t).map (fun l => (k, n) :: l)
  | _ => none

/-- Serialization of an optional credential (serde: `null` / the string). -/
def encodeOptStr : Option String → Json
  | none => .null
  | some s => .str s

/-- Deserialization of an optional credential. -/
def decodeOptStr : Json → Option (Option String)
  | .null => some none
  | .str s => some (some s)
  | _ => none

/-- Serialization of `ConnectionInfo`, fields in declaration order. -/
def encodeConn (ci : ConnectionInfo) : Json :=
  .obj [("host", .str ci.host), ("port", .num ci.port),
        ("password", encodeOptStr ci.password), ("url", .str ci.url),
        ("additional_ports", .obj (ci.additionalPorts.map (fun p => (p.1, Json.num p.2))))]

/-- Deserialization of `ConnectionInfo`. -/
def decodeConn : Json → Option ConnectionInfo
  | .obj [("host", .str h), ("port", .num p), ("password", pw),
          ("url", .str u), ("additional_ports", .obj aps)] =>
    match decodeOptStr pw, decodeNatPairs aps with
    | some pw2, some aps2 => some ⟨h, p, pw2, u, aps2⟩
    | _, _ => none
  | _ => none

/-- Deserialization of the metadata map. -/
def decodeMetaPairs : List (String × Json) → Option (List (String × MetaVal))
  | [] => some []
  | (k, j) :: t =>
    match decodeMeta j, decodeMetaPairs t with
    | some v, some l => some ((k, v) :: l)
    | _, _ => none

/-- Serialization of a descriptor, fields in declaration order. -/
def encodeInfo (i : InstanceInfo) : Json :=
  .obj [("name", .str i.name), ("instance_type", encodeType i.instanceType),
        ("created_at", .str i.createdAt),
        ("ports", .arr (i.ports.map .num)),
        ("containers", .arr (i.containers.map .str)),
        ("connection_info", encodeConn i.connectionInfo),
        ("metadata", .obj (i.metadata.map (fun p => (p.1, encodeMeta p.2))))]

/-- Deserialization of a descriptor. -/
def decodeInfo : Json → Option InstanceInfo
  | .obj [("name", .str n), ("instance_type", tj), ("created_at", .str ca),
          ("ports", .arr pj), ("containers", .arr cj),
          ("connection_info", cij), ("metadata", .obj mj)] =>
    match decodeType tj, decodeNatList pj, decodeStrList cj,
        decodeConn cij, decodeMetaPairs mj with
    | some t, some ps, some cs, some ci, some md =>
      some ⟨n, t, ca, ps, cs, ci, md⟩
    | _, _, _, _, _ => none
  | _ => none

/-- Deserialization of the `instances` map. -/
def decodeInfoPairs : List (String × Json) → Option (List (String × InstanceInfo))
  | [] => some []
  | (k, j) :: t =>
    match decodeInfo j, decodeInfoPairs t with
    | some v, some l => some ((k, v) :: l)
    | _, _ => none

/-- Serialization of the whole registry (`instances` then `counters`). -/
def encodeConfig (c : Config) : Json :=
  .obj [("instances", .obj (c.instances.map (fun p => (p.1, encodeInfo p.2)))),
        ("counters", .obj (c.counters.map (fun p => (p.1, Json.num p.2))))]

/-- Deserialization of the whole registry. -/
def decodeConfig : Json → Option Config
  | .obj [("instances", .obj ij), ("counters", .obj cj)] =>
    match decodeInfoPairs ij, decodeNatPairs cj with
    | some is, some cs => some ⟨is, cs⟩
    | _, _ => none
  | _ => none

/-- `Config::save` (`src/config.rs`, lines 86-99): a full overwrite of the
store with the serialized registry. -/
def Config.saveTo (c : Config) : Option Json :=
  some (encodeConfig c)

/-- `Config::load` (`src/config.rs`, lines 69-83): a missing store is the
empty registry; otherwise the document is parsed, a parse failure being an
error. -/
def Config.loadFrom (store : Option Json) : Except String Config :=
  match store with
  | none => .ok { instances := [], counters := [] }
  | some j =>
    match decodeConfig j with
    | some c => .ok c
    | none => .error "Failed to parse config file"

/-! ## Association-list and allocator lemmas -/

theorem alookup_aupsert_same {β : Type} (k : String) (v : β)
    (l : List (String × β)) : alookup k (aupsert k v l) = some v := by
  induction l with
  | nil => simp [aupsert, alookup]
  | cons h t ih =>
    obtain ⟨k2, v2⟩ := h
    by_cases hk : k2 = k
    · simp [aupsert, hk, alookup]
    · simp [aupsert, hk, alookup, ih]

theorem alookup_aupsert_other {β : Type} (k k2 : String) (v : β)
    (l : List (String × β)) (h : k2 ≠ k) :
    alookup k2 (aupsert k v l) = alookup k2 l := by
  induction l with
  | nil =>
    simp only [aupsert, alookup]
    rw [if_neg (fun hh => h hh.symm)]
  | cons hd t ih =>
    obtain ⟨k3, v3⟩ := hd
    simp only [aupsert]
    by_cases hk : k3 = k
    · subst hk
      rw [if_pos rfl]
      simp only [alookup]
      rw [if_neg (fun hh => h hh.symm), if_neg (fun hh => h hh.symm)]
    · rw [if_neg hk]
      simp only [alookup]
      by_cases hk2 : k3 = k2
      · rw [if_pos hk2, if_pos hk2]
      · rw [if_neg hk2, if_neg hk2]
        exact ih

theorem alookup_rollback_self (k : String) (l : List (String × Nat)) :
    (alookup k (rollbackCounter l k)).getD 0 = (alookup k l).getD 0 - 1 := by
  induction l with
  | nil => simp [rollbackCounter, alookup]
  | cons hd t ih =>
    obtain ⟨k2, v2⟩ := hd
    simp only [rollbackCounter, List.map_cons]
    by_cases hk : k2 = k
    · subst hk
      rw [if_pos rfl]
      simp only [alookup, if_pos rfl]
      cases v2 with
      | zero => simp
      | succ m => simp
    · rw [if_neg hk]
      simp only [alookup]
      rw [if_neg hk, if_neg hk]
      simpa [rollbackCounter] using ih

theorem alookup_aremove_self {β : Type} (k : String)
    (l : List (String × β)) : alookup k (aremove k l) = none := by
  induction l with
  | nil => simp [aremove, alookup]
  | cons hd t ih =>
    obtain ⟨k2, v2⟩ := hd
    by_cases hk : k2 = k
    · simpa [aremove, hk] using ih
    · simpa [aremove, alookup, hk] using ih

theorem instanceTypeStr_inj (a b : InstanceType) (h : a.str = b.str) :
    a = b := by
  cases a <;> cases b <;> first | rfl | exact absurd h (by decide)

/-! ## `maxByLast` lemmas -/

theorem foldl_pickLater_some {α : Type} (le : α → α → Bool) :
    ∀ (l : List α) (a : α), ∃ r, l.foldl (pickLater le) (some a) = some r ∧
      (r = a ∨ r ∈ l) := by
  intro l
  induction l with
  | nil => exact fun a => ⟨a, rfl, Or.inl rfl⟩
  | cons x t ih =>
    intro a
    by_cases h : le a x = true
    · obtain ⟨r, hr, hmem⟩ := ih x
      refine ⟨r, by simpa [pickLater, h] using hr, ?_⟩
      rcases hmem with h1 | h1
      · exact Or.inr (h1 ▸ List.mem_cons_self x t)
      · exact Or.inr (List.mem_cons_of_mem x h1)
    · obtain ⟨r, hr, hmem⟩ := ih a
      refine ⟨r, by simpa [pickLater, h] using hr, ?_⟩
      rcases hmem with h1 | h1
      · exact Or.inl h1
      · exact Or.inr (List.mem_cons_of_mem x h1)

theorem maxByLast_none_iff {α : Type} (le : α → α → Bool) (l : List α) :
    maxByLast le l = none ↔ l = [] := by
  cases l with
  | nil => simp [maxByLast]
  | cons x t =>
    obtain ⟨r, hr, _⟩ := foldl_pickLater_some le t x
    simp only [maxByLast, List.foldl_cons, pickLater]
    rw [hr]
    simp

theorem maxByLast_mem {α : Type} (le : α → α → Bool) (l : List α) (r : α)
    (h : maxByLast le l = some r) : r ∈ l := by
  cases l with
  | nil => simp [maxByLast] at h
  | cons x t =>
    obtain ⟨r2, hr, hmem⟩ := foldl_pickLater_some le t x
    simp only [maxByLast, List.foldl_cons, pickLater] at h
    rw [hr] at h
    cases h
    rcases hmem with h1 | h1
    · exact h1 ▸ List.mem_cons_self x t
    · exact List.mem_cons_of_mem x h1

theorem foldl_pickLater_le_max {α : Type} (le : α → α → Bool)
    (htot : ∀ a b, le a b = false → le b a = true)
    (htrans : ∀ a b c, le a b = true → le b c = true → le a c = true) :
    ∀ (l : List α) (a r : α),
      l.foldl (pickLater le) (some a) = some r →
      (r = a ∨ le a r = true) ∧ ∀ x ∈ l, r = x ∨ le x r = true := by
  intro l
  induction l with
  | nil =>
    intro a r h
    cases h
    exact ⟨Or.inl rfl, by simp⟩
  | cons x t ih =>
    intro a r h
    cases hax : le a x with
    | true =>
      have h2 : t.foldl (pickLater le) (some x) = some r := by
        simpa [pickLater, hax] using h
      obtain ⟨h3, h4⟩ := ih x r h2
      have hxr : r = x ∨ le x r = true := h3
      refine ⟨?_, fun y hy => ?_⟩
      · rcases hxr with h5 | h5
        · exact Or.inr (h5 ▸ hax)
        · exact Or.inr (htrans a x r hax h5)
      · rcases List.mem_cons.mp hy with h5 | h5
        · exact h5 ▸ hxr
        · exact h4 y h5
    | false =>
      have h2 : t.foldl (pickLater le) (some a) = some r := by
        simpa [pickLater, hax] using h
      obtain ⟨h3, h4⟩ := ih a r h2
      refine ⟨h3, fun y hy => ?_⟩
      rcases List.mem_cons.mp hy with h5 | h5
      · subst h5
        rcases h3 with h6 | h6
        · exact Or.inr (h6 ▸ htot a y hax)
        · exact Or.inr (htrans y a r (htot a y hax) h6)
      · exact h4 y h5

theorem maxByLast_le_max {α : Type} (le : α → α → Bool)
    (htot : ∀ a b, le a b = false → le b a = true)
    (htrans : ∀ a b c, le a b = true → le b c = true → le a c = true)
    (l : List α) (r : α) (h : maxByLast le l = some r) :
    ∀ x ∈ l, r = x ∨ le x r = true := by
  cases l with
  | nil => simp [maxByLast] at h
  | cons x t =>
    simp only [maxByLast, List.foldl_cons, pickLater] at h
    obtain ⟨h1, h2⟩ := foldl_pickLater_le_max le htot htrans t x r h
    intro y hy
    rcases List.mem_cons.mp hy with h3 | h3
    · exact h3 ▸ h1
    · exact h2 y h3

/-! ## Serialization round-trip lemmas -/

theorem decodeStrList_encode (xs : List String) :
    decodeStrList (xs.map Json.str) = some xs := by
  induction xs with
  | nil => rfl
  | cons h t ih => simp [decodeStrList, ih]

theorem decodeNatList_encode (xs : List Nat) :
    decodeNatList (xs.map Json.num) = some xs := by
  induction xs with
  | nil => rfl
  | cons h t ih => simp [decodeNatList, ih]

theorem decodeNatPairs_encode (l : List (String × Nat)) :
    decodeNatPairs (l.map (fun p => (p.1, Json.num p.2))) = some l := by
  induction l with
  | nil => rfl
  | cons h t ih =>
    obtain ⟨k, n⟩ := h
    simp [decodeNatPairs, ih]

theorem decodeMeta_encode (m : MetaVal) : decodeMeta (encodeMeta m) = some m := by
  cases m with
  | num n => rfl
  | bool b => rfl
  | str s => rfl
  | list xs => simp [encodeMeta, decodeMeta, decodeStrList_encode]

theorem decodeMetaPairs_encode (l : List (String × MetaVal)) :
    decodeMetaPairs (l.map (fun p => (p.1, encodeMeta p.2))) = some l := by
  induction l with
  | nil => rfl
  | cons h t ih =>
    obtain ⟨k, v⟩ := h
    simp [decodeMetaPairs, decodeMeta_encode, ih]

theorem decodeType_encode (t : InstanceType) :
    decodeType (encodeType t) = some t := by
  cases t <;> rfl

theorem decodeOptStr_encode (o : Option String) :
    decodeOptStr (encodeOptStr o) = some o := by
  cases o <;> rfl

theorem decodeConn_encode (ci : ConnectionInfo) :
    decodeConn (encodeConn ci) = some ci := by
  obtain ⟨h, p, pw, u, aps⟩ := ci
  simp [encodeConn, decodeConn, decodeOptStr_encode, decodeNatPairs_encode]

theorem decodeInfo_encode (i : InstanceInfo) :
    decodeInfo (encodeInfo i) = some i := by
  obtain ⟨n, t, ca, ps, cs, ci, md⟩ := i
  simp [encodeInfo, decodeInfo, decodeType_encode, decodeNatList_encode,
    decodeStrList_encode, decodeConn_encode, decodeMetaPairs_encode]

theorem decodeInfoPairs_encode (l : List (String × InstanceInfo)) :
    decodeInfoPairs (l.map (fun p => (p.1, encodeInfo p.2))) = some l := by
  induction l with
  | nil => rfl
  | cons h t ih =>
    obtain ⟨k, v⟩ := h
    simp [decodeInfoPairs, decodeInfo_encode, ih]

theorem decodeConfig_encode (c : Config) :
    decodeConfig (encodeConfig c) = some c := by
  obtain ⟨is, cs⟩ := c
  simp [encodeConfig, decodeConfig, decodeInfoPairs_encode, decodeNatPairs_encode]

/-! ## Claim theorems -/

/-- C5: for every registry value, `save()` followed by `load()` yields a
registry equal to the one saved — the persisted `instances` and `counters`
maps round-trip unchanged through the serialized store. -/
theorem save_load_roundtrip (c : Config) :
    Config.loadFrom (Config.saveTo c) = .ok c := by
  simp [Config.saveTo, Config.loadFrom, decodeConfig_encode]

/-- C2: for every name, masters ≥ 1, replicas ≥ 0 and port base, the
cluster topology has `masters + masters * replicas` containers, container
`i` being named `name ++ "-node-" ++ i` with external port `portBase + i`;
in particular 3 masters, 1 replica and port base 7000 yield 6 nodes with
ports 7000..7005. -/
theorem cluster_topology_spec :
    (∀ (name : String) (masters replicas portBase : Nat), 1 ≤ masters →
      (clusterContainers name masters replicas false).length =
          masters + masters * replicas ∧
      (clusterPorts portBase masters replicas).length =
          masters + masters * replicas ∧
      ∀ i, i < clusterTotalNodes masters replicas →
        (clusterContainers name masters replicas false).get? i =
            some (name ++ "-node-" ++ toString i) ∧
        (clusterPorts portBase masters replicas).get? i = some (portBase + i)) ∧
    clusterContainers "c" 3 1 false =
      ["c-node-0", "c-node-1", "c-node-2", "c-node-3", "c-node-4", "c-node-5"] ∧
    clusterPorts 7000 3 1 = [7000, 7001, 7002, 7003, 7004, 7005] := by
  refine ⟨fun name masters replicas portBase _ => ⟨?_, ?_, fun i hi => ⟨?_, ?_⟩⟩, ?_, ?_⟩
  · simp [clusterContainers, clusterTotalNodes]
  · simp [clusterPorts, clusterTotalNodes]
  · simp [clusterContainers, clusterNodeName, List.get?_eq_getElem?,
      List.getElem?_map, List.getElem?_range hi]
  · simp [clusterPorts, List.get?_eq_getElem?, List.getElem?_map,
      List.getElem?_range hi]
  · decide
  · decide

/-- Witness for C2 at name `c`, 3 masters, 1 replica, port base 7000,
node 4. -/
theorem cluster_topology_spec_witness :
    (clusterContainers "c" 3 1 false).get? 4 = some "c-node-4" ∧
    (clusterPorts 7000 3 1).get? 4 = some 7004 :=
  (cluster_topology_spec.1 "c" 3 1 7000 (by decide) |>.2.2 4 (by decide))

/-- C3: for every number of monitor nodes and every monitored master `j`,
the generated monitor configuration contains the `sentinel monitor`
directive for `j` carrying quorum `sentinels / 2 + 1` (floor division,
i.e. a majority); in particular 3 sentinels give quorum 2, 5 give 3,
and 1 gives 1. -/
theorem sentinel_quorum_spec :
    (∀ (name : String) (sentinelPort masters redisPortBase sentinels : Nat)
       (password : String) (j : Nat), j < masters →
      sentinelMonitorLine name j redisPortBase sentinels ∈
        sentinelConfigLines name sentinelPort masters redisPortBase sentinels
          password ∧
      sentinelQuorum sentinels = sentinels / 2 + 1) ∧
    sentinelQuorum 3 = 2 ∧ sentinelQuorum 5 = 3 ∧ sentinelQuorum 1 = 1 := by
  refine ⟨fun name sp masters rpb s pw j hj => ⟨?_, rfl⟩, rfl, rfl, rfl⟩
  have hmem : sentinelMonitorLine name j rpb s ∈
      sentinelMasterBlock name j rpb s pw := by
    simp [sentinelMasterBlock]
  exact List.mem_append_right _
    (List.mem_flatMap.mpr ⟨j, List.mem_range.mpr hj, hmem⟩)

/-- Witness for C3: the monitor directive for the single master of a
3-sentinel group, quorum 2. -/
theorem sentinel_quorum_spec_witness :
    sentinelMonitorLine "s" 0 6379 3 ∈
      sentinelConfigLines "s" 26379 1 6379 3 "pw" ∧
    sentinelQuorum 3 = 3 / 2 + 1 :=
  sentinel_quorum_spec.1 "s" 26379 1 6379 3 "pw" 0 (by decide)

/-- C8: two consecutive allocations for a kind yield the names
`redis-kind-(c+1)` and `redis-kind-(c+2)` — numeric suffixes differing by
exactly 1; an allocation leaves every other kind's counter untouched; and
failure rollback sets the kind's effective counter to its truncated
predecessor — one less when it was positive, still 0 (never below) when it
was 0. -/
theorem allocator_spec (c : Config) (t u : InstanceType) (hu : u ≠ t) :
    (c.generateName t).1 =
        "redis-" ++ t.str ++ "-" ++ toString (c.counterOf t.str + 1) ∧
    ((c.generateName t).2).counterOf t.str = c.counterOf t.str + 1 ∧
    (((c.generateName t).2).generateName t).1 =
        "redis-" ++ t.str ++ "-" ++ toString (c.counterOf t.str + 2) ∧
    ((c.generateName t).2).counterOf u.str = c.counterOf u.str ∧
    (alookup t.str (rollbackCounter c.counters t.str)).getD 0 =
        c.counterOf t.str - 1 := by
  have hstr : u.str ≠ t.str := fun hh => hu (instanceTypeStr_inj u t hh)
  refine ⟨rfl, ?_, ?_, ?_, ?_⟩
  · simp [Config.generateName, Config.counterOf, alookup_aupsert_same]
  · simp [Config.generateName, Config.counterOf, alookup_aupsert_same]
  · simp [Config.generateName, Config.counterOf,
      alookup_aupsert_other _ _ _ _ hstr]
  · simp [Config.counterOf, alookup_rollback_self]

/-- Witness for C8: from the empty registry, basic allocations produce
`redis-basic-1` then `redis-basic-2`, the cluster counter stays 0, and
rolling back a basic counter of 2 yields 1. -/
theorem allocator_spec_witness :
    ((⟨[], []⟩ : Config).generateName .basic).1 = "redis-basic-1" ∧
    ((((⟨[], []⟩ : Config).generateName .basic).2).generateName .basic).1 =
        "redis-basic-2" ∧
    (((⟨[], []⟩ : Config).generateName .basic).2).counterOf
        InstanceType.cluster.str = 0 ∧
    (alookup InstanceType.basic.str
        (rollbackCounter [("basic", 2)] InstanceType.basic.str)).getD 0 = 1 := by
  have h1 := allocator_spec ⟨[], []⟩ .basic .cluster (by decide)
  have h2 := allocator_spec ⟨[], [("basic", 2)]⟩ .basic .cluster (by decide)
  exact ⟨h1.1.trans (by decide), h1.2.2.1.trans (by decide),
    h1.2.2.2.1.trans (by decide), h2.2.2.2.2.trans (by decide)⟩

/-- Sample registry of C4: two basic descriptors with counters 1 and 5. -/
def c4inst1 : InstanceInfo :=
  { name := "redis-basic-1", instanceType := .basic
    createdAt := "2024-01-01T00:00:00Z", ports := [6379]
    containers := ["container1"]
    connectionInfo :=
      { host := "localhost", port := 6379, password := none
        url := "redis://localhost:6379", additionalPorts := [] }
    metadata := [] }

/-- Second sample descriptor of C4, with counter suffix 5. -/
def c4inst5 : InstanceInfo :=
  { name := "redis-basic-5", instanceType := .basic
    createdAt := "2024-01-02T00:00:00Z", ports := [6380]
    containers := ["container2"]
    connectionInfo :=
      { host := "localhost", port := 6380, password := none
        url := "redis://localhost:6380", additionalPorts := [] }
    metadata := [] }

/-- The sample registry of C4 holding the two basic descriptors. -/
def c4registry : Config :=
  ⟨[("redis-basic-1", c4inst1), ("redis-basic-5", c4inst5)], [("basic", 5)]⟩

/-- C4: `get_latest_instance` returns none exactly when no instance of the
kind exists, and otherwise a descriptor of that kind whose numeric name
suffix is maximal among the kind's instances; on a registry holding
`redis-basic-1` and `redis-basic-5` it returns the latter. -/
theorem latest_of_kind_spec :
    (∀ (c : Config) (t : InstanceType),
      (c.getLatestInstance t = none ↔ c.listInstancesByType t = []) ∧
      ∀ r, c.getLatestInstance t = some r →
        r ∈ c.listInstancesByType t ∧ r.instanceType = t ∧
        ∀ x ∈ c.listInstancesByType t,
          nameCounterKey x.name ≤ nameCounterKey r.name) ∧
    c4registry.getLatestInstance .basic = some c4inst5 := by
  constructor
  · intro c t
    constructor
    · exact maxByLast_none_iff _ _
    · intro r hr
      have hmem := maxByLast_mem _ _ _ hr
      have hmax := maxByLast_le_max _
        (fun a b hf => by
          simp only [decide_eq_false_iff_not] at hf
          simpa using le_of_not_le hf)
        (fun a b c h1 h2 => by
          simp only [decide_eq_true_eq] at h1 h2 ⊢
          exact le_trans h1 h2)
        _ _ hr
      refine ⟨hmem, ?_, fun x hx => ?_⟩
      · have hp := List.of_mem_filter hmem
        exact of_decide_eq_true hp
      · rcases hmax x hx with h1 | h1
        · exact h1 ▸ le_refl _
        · exact of_decide_eq_true h1
  · decide

/-- Witness for C4: applying the lookup contract to the sample registry,
the returned descriptor `redis-basic-5` is of kind basic and its suffix
dominates that of `redis-basic-1`. -/
theorem latest_of_kind_spec_witness :
    nameCounterKey c4inst1.name ≤ nameCounterKey c4inst5.name ∧
    c4inst5.instanceType = InstanceType.basic := by
  have h := (latest_of_kind_spec.1 c4registry .basic).2 c4inst5 (by decide)
  exact ⟨h.2.2 c4inst1 (by decide), h.2.1⟩

/-! ## Comparator lemmas for the two latest-instance notions -/

theorem charListLe_eq_not_lt (as bs : List Char) :
    charListLe as bs = !charListLt bs as := by
  induction as generalizing bs with
  | nil => cases bs <;> rfl
  | cons a at2 ih =>
    cases bs with
    | nil => rfl
    | cons b bt =>
      simp only [charListLe, charListLt]
      by_cases hab : a = b
      · subst hab
        simp [ih]
      · rw [if_neg hab, if_neg (fun hh => hab hh.symm)]
        by_cases hlt : a < b
        · simp [hlt, not_lt_of_gt hlt]
        · have hgt : b < a := (lt_or_gt_of_ne (Ne.symm hab)).resolve_right hlt
          simp [hlt, hgt]

theorem strLe_eq_not_strLt (a b : String) :
    strLe a b = !strLt b a :=
  charListLe_eq_not_lt a.toList b.toList

theorem foldl_pickLater_congr {α : Type} (f g : α → α → Bool) (S : List α)
    (hfg : ∀ a ∈ S, ∀ b ∈ S, f a b = g a b) :
    ∀ (l : List α) (acc : Option α), (∀ x ∈ l, x ∈ S) →
      (∀ a, acc = some a → a ∈ S) →
      l.foldl (pickLater f) acc = l.foldl (pickLater g) acc := by
  intro l
  induction l with
  | nil => intro acc _ _; rfl
  | cons x t ih =>
    intro acc hsub hacc
    have hx : x ∈ S := hsub x (List.mem_cons_self x t)
    have hstep : pickLater f acc x = pickLater g acc x := by
      cases acc with
      | none => rfl
      | some a => simp [pickLater, hfg a (hacc a rfl) x hx]
    rw [List.foldl_cons, List.foldl_cons, hstep]
    refine ih (pickLater g acc x)
      (fun y hy => hsub y (List.mem_cons_of_mem x hy)) ?_
    intro a ha
    cases acc with
    | none =>
      simp only [pickLater] at ha
      cases ha
      exact hx
    | some b =>
      simp only [pickLater] at ha
      by_cases hgb : g b x = true
      · rw [if_pos hgb] at ha
        exact (Option.some.inj ha) ▸ hx
      · rw [if_neg hgb] at ha
        exact (Option.some.inj ha) ▸ hacc b rfl

/-- C9: on a registry whose per-kind numeric name suffixes are ordered
exactly as its `created_at` timestamps (which is how the program itself
creates instances — names in strictly increasing counter order, commit
timestamps in allocation order), the suffix-based `get_latest_instance`
and the timestamp-based most-recent selection agree. -/
theorem latest_suffix_eq_latest_created (c : Config) (t : InstanceType)
    (H : ∀ a ∈ c.listInstancesByType t, ∀ b ∈ c.listInstancesByType t,
      (nameCounterKey a.name < nameCounterKey b.name ↔
        strLt a.createdAt b.createdAt = true)) :
    c.getLatestInstance t = c.latestOfKindByCreated t := by
  have hfg : ∀ a ∈ c.listInstancesByType t, ∀ b ∈ c.listInstancesByType t,
      (decide (nameCounterKey a.name ≤ nameCounterKey b.name)) =
        strLe a.createdAt b.createdAt := by
    intro a ha b hb
    have h2 := H b hb a ha
    rw [strLe_eq_not_strLt]
    cases hlt : strLt b.createdAt a.createdAt with
    | true =>
      have h3 : nameCounterKey b.name < nameCounterKey a.name := h2.mpr hlt
      simpa using not_le_of_gt h3
    | false =>
      have h3 : ¬ nameCounterKey b.name < nameCounterKey a.name := by
        intro h4
        rw [h2.mp h4] at hlt
        cases hlt
      simpa using le_of_not_gt h3
  exact foldl_pickLater_congr _ _ (c.listInstancesByType t) hfg
    (c.listInstancesByType t) none (fun x hx => hx) (by simp)

/-- Sample registry for the C9 witness: two cluster descriptors created in
counter order. -/
def c9instA : InstanceInfo :=
  { name := "redis-cluster-1", instanceType := .cluster
    createdAt := "2024-01-01T00:00:00Z", ports := [7000]
    containers := ["a"]
    connectionInfo :=
      { host := "localhost", port := 7000, password := none
        url := "redis://localhost:7000", additionalPorts := [] }
    metadata := [] }

/-- Second sample descriptor for the C9 witness, created later. -/
def c9instB : InstanceInfo :=
  { name := "redis-cluster-2", instanceType := .cluster
    createdAt := "2024-01-02T00:00:00Z", ports := [7006]
    containers := ["b"]
    connectionInfo :=
      { host := "localhost", port := 7006, password := none
        url := "redis://localhost:7006", additionalPorts := [] }
    metadata := [] }

/-- Sample registry holding the two C9 descriptors. -/
def c9registry : Config :=
  ⟨[("redis-cluster-1", c9instA), ("redis-cluster-2", c9instB)],
   [("cluster", 2)]⟩

/-- Witness for C9: on the sample registry the two notions of most-recent
cluster instance coincide. -/
theorem latest_suffix_eq_latest_created_witness :
    c9registry.getLatestInstance .cluster =
      c9registry.latestOfKindByCreated .cluster :=
  latest_suffix_eq_latest_created c9registry .cluster (by decide)

/-! ## Realization-loop lemmas -/

theorem collectIds_ok_length (f : Nat → Except String String) :
    ∀ (n : Nat) (l : List String), collectIds f n = .ok l → l.length = n := by
  intro n
  induction n with
  | zero =>
    intro l h
    cases h
    rfl
  | succ m ih =>
    intro l h
    simp only [collectIds] at h
    cases hm : collectIds f m with
    | error e => rw [hm] at h; cases h
    | ok l2 =>
      rw [hm] at h
      cases hf : f m with
      | error e => rw [hf] at h; cases h
      | ok id =>
        rw [hf] at h
        cases h
        simp [ih l2 hm]

theorem collectIds_error_first (f : Nat → Except String String) (e : String)
    (hf : f 0 = .error e) : ∀ n, collectIds f (n + 1) = .error e := by
  intro n
  induction n with
  | zero => simp [collectIds, hf]
  | succ m ih =>
    conv_lhs => rw [collectIds]
    rw [ih]

/-- Input of the C1 counterexample: an auto-named sentinel start. -/
def c1args : SentinelArgs := ⟨none, 1, 3, 6379, 26379⟩

/-- Runtime of the C1 counterexample: network creation succeeds, the
first master container fails to start. -/
def c1rt : SentinelRuntime := ⟨.ok (), fun _ => .error "boom", fun _ => .ok "sid"⟩

/-- The trace of the failing sentinel start of the C1 counterexample. -/
def c1trace : StartTrace :=
  start_sentinel ⟨[], []⟩ c1args c1rt "2024-01-01T00:00:00Z" "pw"

/-- C1 counterexample: a sentinel start attempt that fails during
realization (first master container) after auto-allocating a name leaves
the sentinel counter at its post-allocation value 1 — not decremented —
issues no cleanup removals, and never persists the registry; only the
error surfaces.  The claim's compensation behaviour therefore does not
hold for every deployment kind. -/
theorem start_failure_compensation_counterexample :
    c1trace.outcome.isOk = false ∧
    c1trace.finalConfig.counterOf "sentinel" = 1 ∧
    c1trace.persisted = none ∧
    c1trace.removed = [] := by decide

/-- C1 as amended: for the basic, stack and cluster kinds a start failing
during realization after auto-allocation rolls the kind's counter back to
its pre-allocation value (one less than post-allocation, never below
zero), best-effort removes the attempted topology's containers, persists
the registry, adds no descriptor, and surfaces the classified error; for
the sentinel and enterprise kinds the error surfaces but no rollback, no
cleanup and no persistence happen (still no descriptor is added). -/
theorem start_failure_compensation
    (cfg : Config) (e ca pw url : String)
    (cargs : ClusterArgs) (hc : cargs.name = none)
    (bargs : BasicArgs) (hb : bargs.name = none)
    (sargs : StackArgs) (hs : sargs.name = none)
    (snargs : SentinelArgs) (hsn : snargs.name = none)
    (eargs : EnterpriseArgs) (he : eargs.name = none)
    (rt : SentinelRuntime) (hrt1 : rt.network = .ok ())
    (hrt2 : rt.masterStart 0 = .error e) (ins : Except String String) :
    (let tr := start_cluster cfg cargs (.error e) ca pw url
     tr.finalConfig.counterOf "cluster" = cfg.counterOf "cluster" ∧
     tr.finalConfig.counterOf "cluster" + 1 =
        ((cfg.generateName .cluster).2).counterOf "cluster" ∧
     tr.persisted = some tr.finalConfig ∧
     tr.finalConfig.instances = cfg.instances ∧
     tr.removed = clusterContainers (cfg.generateName .cluster).1
        cargs.masters cargs.replicas cargs.withInsight ∧
     tr.outcome.isOk = false) ∧
    (let tr := start_basic cfg bargs (.error e) ins ca pw
     tr.finalConfig.counterOf "basic" = cfg.counterOf "basic" ∧
     tr.persisted = some tr.finalConfig ∧
     tr.finalConfig.instances = cfg.instances ∧
     tr.removed = [(cfg.generateName .basic).1] ∧
     tr.outcome.isOk = false) ∧
    (let tr := start_stack cfg sargs (.error e) ca pw
     tr.finalConfig.counterOf "stack" = cfg.counterOf "stack" ∧
     tr.persisted = some tr.finalConfig ∧
     tr.finalConfig.instances = cfg.instances ∧
     tr.outcome.isOk = false) ∧
    (let tr := start_sentinel cfg snargs rt ca pw
     tr.persisted = none ∧
     tr.finalConfig.counterOf "sentinel" = cfg.counterOf "sentinel" + 1 ∧
     tr.finalConfig.instances = cfg.instances ∧
     tr.removed = [] ∧
     tr.outcome.isOk = false) ∧
    (let tr := start_enterprise cfg eargs (.error e) ca
     tr.persisted = none ∧
     tr.finalConfig.counterOf "enterprise" = cfg.counterOf "enterprise" + 1 ∧
     tr.finalConfig.instances = cfg.instances ∧
     tr.outcome.isOk = false) := by
  have hmax : max snargs.masters 1 = (max snargs.masters 1 - 1) + 1 := by omega
  have hcol : collectIds rt.masterStart (max snargs.masters 1) = .error e := by
    rw [hmax]
    exact collectIds_error_first rt.masterStart e hrt2 _
  refine ⟨⟨?_, ?_, ?_, ?_, ?_, ?_⟩, ⟨?_, ?_, ?_, ?_, ?_⟩, ⟨?_, ?_, ?_, ?_⟩,
    ⟨?_, ?_, ?_, ?_, ?_⟩, ⟨?_, ?_, ?_, ?_⟩⟩
  · simp [start_cluster, hc, Config.counterOf, Config.generateName,
      InstanceType.str, alookup_rollback_self, alookup_aupsert_same]
  · simp [start_cluster, hc, Config.counterOf, Config.generateName,
      InstanceType.str, alookup_rollback_self, alookup_aupsert_same]
  · simp [start_cluster, hc]
  · simp [start_cluster, hc, Config.generateName]
  · simp [start_cluster, hc, Config.generateName]
  · simp [start_cluster, hc, Except.isOk, Except.toBool]
  · simp [start_basic, hb, Config.counterOf, Config.generateName,
      InstanceType.str, alookup_rollback_self, alookup_aupsert_same]
  · simp [start_basic, hb]
  · simp [start_basic, hb, Config.generateName]
  · simp [start_basic, hb, Config.generateName]
  · simp [start_basic, hb, Except.isOk, Except.toBool]
  · simp [start_stack, hs, Config.counterOf, Config.generateName,
      InstanceType.str, alookup_rollback_self, alookup_aupsert_same]
  · simp [start_stack, hs]
  · simp [start_stack, hs, Config.generateName]
  · simp [start_stack, hs, Except.isOk, Except.toBool]
  · simp [start_sentinel, hsn, hrt1, hcol]
  · simp [start_sentinel, hsn, hrt1, hcol, Config.counterOf,
      Config.generateName, InstanceType.str, alookup_aupsert_same]
  · simp [start_sentinel, hsn, hrt1, hcol, Config.generateName]
  · simp [start_sentinel, hsn, hrt1, hcol]
  · simp [start_sentinel, hsn, hrt1, hcol, Except.isOk, Except.toBool]
  · simp [start_enterprise, he]
  · simp [start_enterprise, he, Config.counterOf, Config.generateName,
      InstanceType.str, alookup_aupsert_same]
  · simp [start_enterprise, he, Config.generateName]
  · simp [start_enterprise, he, Except.isOk, Except.toBool]

/-- Witness for C1 (amended) at the empty registry: the failed cluster
start rolls its counter back to 0 and persists; the failed sentinel start
persists nothing. -/
theorem start_failure_compensation_witness :
    (start_cluster ⟨[], []⟩ ⟨none, 3, 1, 7000, false, none, false, false, 8001⟩
        (.error "x") "t" "p" "u").finalConfig.counterOf "cluster" = 0 ∧
    (start_sentinel ⟨[], []⟩ ⟨none, 1, 3, 6379, 26379⟩
        ⟨.ok (), fun _ => .error "x", fun _ => .ok "id"⟩ "t" "p").persisted =
      none := by
  have h := start_failure_compensation ⟨[], []⟩ "x" "t" "p" "u"
    ⟨none, 3, 1, 7000, false, none, false, false, 8001⟩ rfl
    ⟨none, 6379, false, none, false, 8001⟩ rfl
    ⟨none, 6379, false, none, false, 8001⟩ rfl
    ⟨none, 1, 3, 6379, 26379⟩ rfl
    ⟨none, 8443, none, 12000, false⟩ rfl
    ⟨.ok (), fun _ => .error "x", fun _ => .ok "id"⟩ rfl rfl (.error "")
  exact ⟨h.1.1.trans (by decide), h.2.2.2.1.1⟩

/-- The three-entry batch of the C6 counterexample. -/
def c6entries : List Deployment := [⟨"one"⟩, ⟨"two"⟩, ⟨"three"⟩]

/-- Per-entry action of the C6 counterexample: entry `two` fails. -/
def c6run : Deployment → Except String Unit :=
  fun d => if d.name = "two" then .error "boom" else .ok ()

/-- C6 counterexample: on a supported-version batch whose second entry
fails, `deploy_from_yaml` still returns `Ok` (a success / zero exit
signal) and its complete output is the three per-entry lines plus the
fixed completion line — no count of succeeded vs failed deployments is
reported anywhere, and no failure is signalled to the caller. -/
theorem batch_deploy_counterexample :
    c6run ⟨"two"⟩ = .error "boom" ∧
    deploy_from_yaml "v1" c6entries c6run =
      .ok ["one deployed successfully",
           "Failed to deploy two: boom",
           "three deployed successfully",
           "All deployments complete"] ∧
    (deploy_from_yaml "v1" c6entries c6run).isOk = true := by decide

/-- C6 as amended: an unsupported version is a hard failure before any
entry runs; with the supported version every entry is attempted in order
and an entry's failure does not abort the rest (successful entries still
commit their descriptors), each entry contributing exactly its own output
line; but the operation reports no succeeded/failed counts and completes
with an `Ok` (zero-signaling) result even when entries fail. -/
theorem batch_deploy_spec
    (api : String) (ds : List Deployment)
    (run1 : Deployment → Except String Unit)
    (hv : api = "v1") (i : Nat) (d : Deployment) (hd : ds.get? i = some d) :
    (∀ api2, api2 ≠ "v1" → ∀ (ds2 : List Deployment) run2,
        (deploy_from_yaml api2 ds2 run2).isOk = false) ∧
    (deploy_from_yaml api ds run1).isOk = true ∧
    deploy_from_yaml api ds run1 =
      .ok ((ds.map (fun d2 => deployMessage d2 (run1 d2)))
            ++ ["All deployments complete"]) ∧
    ((ds.map (fun d2 => deployMessage d2 (run1 d2)))
        ++ ["All deployments complete"]).get? i =
      some (deployMessage d (run1 d)) ∧
    (let fcfg := deployBasicBatch ⟨[], []⟩
        [(⟨some "one", 6379, false, none, false, 8001⟩, .ok ()),
         (⟨some "two", 6380, false, none, false, 8001⟩, .error "boom"),
         (⟨some "three", 6381, false, none, false, 8001⟩, .ok ())] "t" "pw"
     (fcfg.getInstance "one").isSome = true ∧
     fcfg.getInstance "two" = none ∧
     (fcfg.getInstance "three").isSome = true) := by
  subst hv
  have hi : i < ds.length := List.get?_eq_some.mp hd |>.1
  refine ⟨?_, ?_, ?_, ?_, ?_⟩
  · intro api2 h2 ds2 run2
    simp [deploy_from_yaml, h2, Except.isOk, Except.toBool]
  · simp [deploy_from_yaml, Except.isOk, Except.toBool]
  · simp [deploy_from_yaml]
  · rw [List.get?_append (by simpa using hi)]
    have hd2 : ds[i]? = some d := by
      rw [← List.get?_eq_getElem?]
      exact hd
    simp [List.get?_eq_getElem?, List.getElem?_map, hd2]
  · decide

/-- Witness for C6 (amended) on a two-entry all-success batch. -/
theorem batch_deploy_spec_witness :
    (deploy_from_yaml "v1" [⟨"a"⟩, ⟨"b"⟩] (fun _ => Except.ok ())).isOk =
      true := by
  have h := batch_deploy_spec "v1" [⟨"a"⟩, ⟨"b"⟩] (fun _ => .ok ()) rfl 0
    ⟨"a"⟩ rfl
  exact h.2.1

/-- Descriptor of the C7 counterexample registry. -/
def c7inst : InstanceInfo :=
  { name := "redis-basic-1", instanceType := .basic, createdAt := "t"
    ports := [6379], containers := ["redis-basic-1"]
    connectionInfo :=
      { host := "localhost", port := 6379, password := none
        url := "u", additionalPorts := [] }
    metadata := [] }

/-- Registry of the C7 counterexample. -/
def c7cfg : Config := ⟨[("redis-basic-1", c7inst)], [("basic", 1)]⟩

/-- Runtime of the C7 counterexample: stopping any container fails. -/
def c7rt : StopRuntime :=
  ⟨fun _ => .error "stopfail", fun _ => .ok (), fun _ => .ok ()⟩

/-- C7 counterexample: stopping a basic instance whose container stop
command fails makes the whole stop operation fail — the registry entry is
neither removed nor saved — contradicting the claim that every kind's
stop tolerates and counts individual removal failures. -/
theorem stop_tolerance_counterexample :
    (stop_basic c7cfg (some "redis-basic-1") c7rt).outcome.isOk = false ∧
    (stop_basic c7cfg (some "redis-basic-1") c7rt).finalConfig.getInstance
        "redis-basic-1" = some c7inst ∧
    (stop_basic c7cfg (some "redis-basic-1") c7rt).persisted = none := by
  decide

/-- C7 as amended: sentinel (and enterprise) stops silently ignore —
without even counting — every individual container/network stop or
removal failure and still remove and save the registry entry; basic,
stack and cluster stops abort on the first container stop/remove failure,
returning an error and leaving the registry entry in place, unsaved. -/
theorem stop_tolerance_spec (cfg : Config) (name : String)
    (inst : InstanceInfo) (rt : StopRuntime) (e : String)
    (hin : cfg.getInstance name = some inst) :
    (let tr := stop_sentinel cfg (some name) rt
     tr.outcome = .ok () ∧ tr.finalConfig.getInstance name = none ∧
     tr.persisted = some tr.finalConfig) ∧
    (inst.instanceType = .basic → rt.stopContainer name = .error e →
      let tr := stop_basic cfg (some name) rt
      tr.outcome.isOk = false ∧ tr.finalConfig = cfg ∧ tr.persisted = none) ∧
    (inst.instanceType = .cluster →
      let tr := stop_cluster cfg (some name) (.error e) (.ok ())
      tr.outcome.isOk = false ∧ tr.finalConfig = cfg ∧ tr.persisted = none) := by
  have hin2 : alookup name cfg.instances = some inst := hin
  refine ⟨⟨?_, ?_, ?_⟩, fun hbk hstop => ?_, fun hck => ?_⟩
  · simp [stop_sentinel, Config.getInstance, hin2]
  · simp [stop_sentinel, Config.getInstance, hin2, Config.removeInstance,
      alookup_aremove_self]
  · simp [stop_sentinel, Config.getInstance, hin2]
  · refine ⟨?_, ?_, ?_⟩ <;>
      simp [stop_basic, hin, hbk, hstop, Except.isOk, Except.toBool]
  · refine ⟨?_, ?_, ?_⟩ <;>
      simp [stop_cluster, hin, hck, Except.isOk, Except.toBool]

/-- Witness for C7 (amended): on the sample registry, the sentinel-style
stop succeeds despite the failing runtime while the basic stop does not
persist. -/
theorem stop_tolerance_spec_witness :
    (stop_sentinel c7cfg (some "redis-basic-1") c7rt).outcome = .ok () ∧
    (stop_basic c7cfg (some "redis-basic-1") c7rt).persisted = none := by
  have h := stop_tolerance_spec c7cfg "redis-basic-1" c7inst c7rt "stopfail"
    (by decide)
  exact ⟨h.1.1, (h.2.1 (by decide) (by decide)).2.2⟩

/-- Arguments of the C10 counterexample: a named cluster start with zero
masters and no inspector (the CLI does not enforce the documented minimum
of masters). -/
def c10args : ClusterArgs := ⟨some "c0", 0, 5, 7000, false, none, false, false, 8001⟩

/-- Trace of the C10 counterexample start. -/
def c10trace : StartTrace :=
  start_cluster ⟨[], []⟩ c10args (.ok ()) "t" "pw" "u"

/-- C10 counterexample: a cluster start with masters = 0 and no inspector
that the runtime reports successful commits and persists a descriptor
whose containers list is empty, so the logs command's access of containers
element 0 fails for an instance the program itself persisted. -/
theorem logs_representative_counterexample :
    c10trace.outcome.isOk = true ∧
    c10trace.persisted = some c10trace.finalConfig ∧
    (c10trace.finalConfig.getInstance "c0").map (fun i => i.containers) =
      some [] ∧
    (c10trace.finalConfig.getInstance "c0").map representativeContainer =
      some none := by decide

/-- C10 as amended: every descriptor committed by a successful basic,
stack, sentinel or enterprise start has a nonempty containers list — its
representative container for log viewing exists — and so does a committed
cluster descriptor provided masters ≥ 1; only a cluster start with zero
masters and no inspector can commit an empty containers list. -/
theorem committed_containers_nonempty :
    (∀ cfg (args : BasicArgs) rtRes ins ca pw info,
      (start_basic cfg args rtRes ins ca pw).outcome = .ok info →
      (representativeContainer info).isSome = true) ∧
    (∀ cfg (args : StackArgs) rtRes ca pw info,
      (start_stack cfg args rtRes ca pw).outcome = .ok info →
      (representativeContainer info).isSome = true) ∧
    (∀ cfg (args : SentinelArgs) rt ca pw info,
      (start_sentinel cfg args rt ca pw).outcome = .ok info →
      (representativeContainer info).isSome = true) ∧
    (∀ cfg (args : EnterpriseArgs) rtc ca info,
      (start_enterprise cfg args rtc ca).outcome = .ok info →
      (representativeContainer info).isSome = true) ∧
    (∀ cfg (args : ClusterArgs) rtRes ca pw url info, 1 ≤ args.masters →
      (start_cluster cfg args rtRes ca pw url).outcome = .ok info →
      (representativeContainer info).isSome = true) := by
  refine ⟨?_, ?_, ?_, ?_, ?_⟩
  · intro cfg args rtRes ins ca pw info h
    cases rtRes with
    | error e => simp [start_basic] at h
    | ok u =>
      simp only [start_basic, Except.ok.injEq] at h
      subst h
      simp [representativeContainer]
  · intro cfg args rtRes ca pw info h
    cases rtRes with
    | error e => simp [start_stack] at h
    | ok u =>
      simp only [start_stack, Except.ok.injEq] at h
      subst h
      simp [representativeContainer]
  · intro cfg args rt ca pw info h
    cases hnet : rt.network with
    | error e => simp [start_sentinel, hnet] at h
    | ok u =>
      cases hcm : collectIds rt.masterStart (max args.masters 1) with
      | error e => simp [start_sentinel, hnet, hcm] at h
      | ok masterIds =>
        cases hcs : collectIds rt.sentinelStart (max args.sentinels 1) with
        | error e => simp [start_sentinel, hnet, hcm, hcs] at h
        | ok sentinelIds =>
          simp only [start_sentinel, hnet, hcm, hcs, Except.ok.injEq] at h
          subst h
          have hlen := collectIds_ok_length rt.masterStart _ _ hcm
          have hpos : 0 < masterIds.length := by omega
          simp only [representativeContainer]
          rw [List.get?_append (by simpa using hpos)]
          simp [List.get?_eq_getElem?, List.getElem?_eq_some_iff, hpos]
  · intro cfg args rtc ca info h
    cases rtc with
    | error e => simp [start_enterprise] at h
    | ok conn =>
      simp only [start_enterprise, Except.ok.injEq] at h
      subst h
      simp [representativeContainer]
  · intro cfg args rtRes ca pw url info hm h
    cases rtRes with
    | error e => simp [start_cluster] at h
    | ok u =>
      simp only [start_cluster, Except.ok.injEq] at h
      subst h
      have htot : 0 < clusterTotalNodes args.masters args.replicas := by
        unfold clusterTotalNodes
        omega
      simp only [representativeContainer, clusterContainers]
      rw [List.get?_append (by simpa using htot)]
      simp [List.get?_eq_getElem?, List.getElem?_map, List.getElem?_range htot]

/-- Witness for C10 (amended): the descriptor committed by a successful
3-master cluster start has a representative container. -/
theorem committed_containers_nonempty_witness :
    (representativeContainer
      { name := "w", instanceType := .cluster, createdAt := "t"
        ports := clusterPorts 7000 3 0
        containers := clusterContainers "w" 3 0 false
        connectionInfo :=
          { host := "localhost", port := 7000, password := some "p"
            url := "u", additionalPorts := [] }
        metadata :=
          clusterMetadata ⟨some "w", 3, 0, 7000, false, none, false, false, 8001⟩ }).isSome =
      true :=
  committed_containers_nonempty.2.2.2.2 ⟨[], []⟩
    ⟨some "w", 3, 0, 7000, false, none, false, false, 8001⟩ (.ok ()) "t" "p" "u"
    _ (by decide) (by decide)

end RedisUp
